import Mathlib

/-!
Verification of `src/ecosystem.config.js`, a declarative process-manager
configuration exporting a list `apps` of application entries.

The JavaScript object literal is shallowly embedded: each entry becomes an
`AppEntry` record (the optional `args` field becomes `Option String`), and
`module.exports` becomes an `EcosystemConfig` record with the single field
`apps`.
-/

/-- One declarative record of the `apps` list: fields `name`, `script` and
`interpreter` are present on every entry; `args` is optional. -/
structure AppEntry where
  name : String
  script : String
  args : Option String
  interpreter : String
deriving DecidableEq, Repr

/-- The shape of `module.exports`: an object with exactly one field, `apps`. -/
structure EcosystemConfig where
  apps : List AppEntry
deriving DecidableEq, Repr

/-- First entry of the `apps` list (lines 3-7 of the source): the hub
application, run through the `python` interpreter, with no `args` field. -/
def wiigiiHub : AppEntry :=
  { name := "wiigii-hub"
    script := "./app.py"
    args := none
    interpreter := "python" }

/-- Second entry of the `apps` list (lines 8-13 of the source): the tunnel
client, a native executable run with the `"none"` interpreter sentinel and a
raw argument string. -/
def wiigiiTunnel : AppEntry :=
  { name := "wiigii-tunnel"
    script := "./cloudflared.exe"
    args := some "tunnel --url http://127.0.0.1:5000"
    interpreter := "none" }

/-- `module.exports` of `src/ecosystem.config.js`. -/
def moduleExports : EcosystemConfig :=
  { apps := [wiigiiHub, wiigiiTunnel] }

/-- Modelled from the spec: the `"none"` interpreter sentinel signals direct
execution of the script (the script is itself a native/direct executable)
rather than invocation through a named language runtime. -/
def directExecution (e : AppEntry) : Prop :=
  e.interpreter = "none"

instance (e : AppEntry) : Decidable (directExecution e) :=
  inferInstanceAs (Decidable (e.interpreter = "none"))

/-- Modelled from the spec: an interpreter string is valid when it either
names a concrete runtime (a non-empty string other than the sentinel) or is
the direct-execution sentinel `"none"`. -/
def interpreterValid (e : AppEntry) : Prop :=
  e.interpreter = "none" ∨ (e.interpreter ≠ "" ∧ e.interpreter ≠ "none")

instance (e : AppEntry) : Decidable (interpreterValid e) := by
  unfold interpreterValid; infer_instance

/-- C1: The exported apps list contains exactly two AppEntry records. -/
theorem apps_length_two : moduleExports.apps.length = 2 := by decide

/-- C2: For every pair of distinct entries in the apps list, their `name`
fields are different strings: `name` is unique within the list. -/
theorem apps_names_unique :
    moduleExports.apps.Pairwise (fun a b => a.name ≠ b.name) := by decide

/-- C3: Every entry in the apps list has a `name` field that is a non-empty
string. -/
theorem apps_names_nonempty :
    moduleExports.apps.all (fun e => !(e.name == "")) = true := by decide

/-- C4: Every entry in the apps list has a `script` field that is a non-empty
path string. -/
theorem apps_scripts_nonempty :
    moduleExports.apps.all (fun e => !(e.script == "")) = true := by decide

/-- C5: An entry whose `interpreter` field equals the sentinel `"none"`
designates direct execution of its script; in this list that holds for the
entry named `"wiigii-tunnel"`: it is a member of the list, bears that name,
and satisfies the direct-execution predicate. -/
theorem wiigii_tunnel_direct_execution :
    wiigiiTunnel ∈ moduleExports.apps ∧
      wiigiiTunnel.name = "wiigii-tunnel" ∧ directExecution wiigiiTunnel := by
  refine ⟨?_, rfl, rfl⟩
  decide

/-- C6: Every entry in the apps list defines a `name`, a `script` and an
`interpreter` (all `AppEntry` fields are total), and each entry's
`interpreter` is a string that either names a runtime or is the
direct-execution sentinel. -/
theorem apps_interpreters_valid :
    moduleExports.apps.all (fun e => decide (interpreterValid e)) = true := by
  decide

/-- C7: The `args` field is optional (`Option String` in the record), and in
this list exactly one entry has an `args` field: it is the entry named
`"wiigii-tunnel"` and its value is `"tunnel --url http://127.0.0.1:5000"`. -/
theorem args_exactly_one :
    (moduleExports.apps.filter (fun e => e.args.isSome)).map
        (fun e => (e.name, e.args)) =
      [("wiigii-tunnel", some "tunnel --url http://127.0.0.1:5000")] := by
  decide

/-- C8: The module's export is an object with exactly one field, `apps`; it is
fully determined by that field, and no other configuration keys exist. -/
theorem module_exports_only_apps :
    moduleExports = { apps := moduleExports.apps } ∧
      ∀ c : EcosystemConfig, c = { apps := c.apps } := by
  exact ⟨rfl, fun c => rfl⟩

/-- C9: The entry named `"wiigii-hub"` has no `args` field, its script is
`"./app.py"`, and its interpreter is `"python"`, so the script is launched by
the python runtime with no additional command-line arguments. -/
theorem wiigii_hub_no_args :
    wiigiiHub ∈ moduleExports.apps ∧ wiigiiHub.name = "wiigii-hub" ∧
      wiigiiHub.args = none ∧ wiigiiHub.script = "./app.py" ∧
      wiigiiHub.interpreter = "python" := by
  refine ⟨?_, rfl, rfl, rfl, rfl⟩
  decide

/-- C10: Exactly one entry in the apps list uses the `"none"` interpreter
sentinel, that entry's script path ends in `".exe"`, and the other entry
names the concrete runtime `"python"`. -/
theorem exactly_one_direct_execution :
    (moduleExports.apps.filter (fun e => decide (directExecution e))).all
        (fun e => ".exe".data.isSuffixOf e.script.data) = true ∧
      (moduleExports.apps.filter (fun e => decide (directExecution e))).length
        = 1 ∧
      (moduleExports.apps.filter (fun e => !decide (directExecution e))).map
        (fun e => e.interpreter) = ["python"] := by
  refine ⟨?_, by decide, by decide⟩
  decide
